import Mathlib

/-!
Shallow embedding of the text-to-image web app (src/utils.py and src/app.py).

The repository has two variants of the retrying inference client
`query_hf_api`: one in src/utils.py (explicit 503 branch with backoff
sleeps, payload without guidance_scale) and one in src/app.py (no 503
branch, no sleeps, payload with guidance_scale).  Both are embedded here,
together with the prompt enhancer `craft_realistic_prompt`, the format
converter `convert_image` and the UI boundary `generate_image`.

Modelling conventions:
- bytes are lists of naturals;
- the network is an oracle `backend : Nat → ReqResult` giving the outcome
  of the requests.post call of each attempt (a response, or a raised
  transport-level RequestException);
- the HF_TOKEN environment read (load_environment) is modelled as an
  explicit `token : Option String` parameter;
- side effects (network calls, time.sleep, image encoding) are recorded in
  an explicit event trace returned alongside the result;
- raised Python exceptions are an `Except PyError` result.
-/

/-- Raw payload bytes, modelled as a list of byte values. -/
abbrev Bytes := List Nat

/-- An HTTP response: status code and body content. -/
structure Response where
  status : Nat
  content : Bytes
deriving DecidableEq

/-- Outcome of one requests.post call: a response, or a raised
transport-level RequestException (connection error, timeout, ...). -/
inductive ReqResult where
  | ok (r : Response)
  | exc (msg : String)
deriving DecidableEq

/-- requests.exceptions.RequestException as seen by the retry loop:
either an HTTPError from response.raise_for_status() or a transport
error raised by requests.post itself. -/
inductive RequestError where
  | httpError (status : Nat)
  | transportError (msg : String)
deriving DecidableEq

/-- Python exceptions raised by the embedded functions.  runtimeError
carries the wrapped cause when the raising f-string interpolates the
underlying RequestException, and none when it does not. -/
inductive PyError where
  | valueError (msg : String)
  | runtimeError (msg : String) (cause : Option RequestError)
deriving DecidableEq

/-- response.raise_for_status"()": raises HTTPError iff 400 ≤ status < 600. -/
def raiseForStatus (r : Response) : Option RequestError :=
  if 400 ≤ r.status ∧ r.status < 600 then some (.httpError r.status) else none

/-- Model of str(e) for a RequestException.  The exact rendering comes
from the requests library, not this repository; only its presence inside
the wrapping RuntimeError message matters to any claim. -/
def RequestError.str : RequestError → String
  | .httpError s => toString s ++ " Error"
  | .transportError m => m

/-- The HTTP headers built by query_hf_api. -/
structure Headers where
  authorization : String
  contentType : String
deriving DecidableEq

/-- The JSON request body built by query_hf_api: inputs plus the
parameters object.  guidance_scale is optional because only the app.py
variant includes that key. -/
structure Payload where
  inputs : String
  negative_prompt : String
  num_inference_steps : Nat
  guidance_scale : Option Rat
deriving DecidableEq

/-- Observable side effects of a query_hf_api run: a network call
(requests.post with its headers and JSON body) or a time.sleep. -/
inductive Ev where
  | post (h : Headers) (p : Payload)
  | sleep (secs : Nat)
deriving DecidableEq

/-- Python "not prompt or not prompt.strip()": true iff the string has no
non-whitespace character, i.e. it is empty or strip() leaves it empty. -/
def blankPrompt (s : String) : Bool := s.data.all Char.isWhitespace

/-- Python str.lower"()", mapping ASCII lowercasing over the characters
(kept as an explicit list map so concrete inputs evaluate in the kernel). -/
def pyLower (s : String) : String := ⟨s.data.map Char.toLower⟩

/-- Python range(n) over the attempt counter; empty when n ≤ 0. -/
def pyRange (n : Int) : List Nat := List.range n.toNat

/-- Number of network calls in an event trace. -/
def postCount : List Ev → Nat
  | [] => 0
  | .post _ _ :: rest => postCount rest + 1
  | .sleep _ :: rest => postCount rest

/-- The sleep durations of an event trace, in order. -/
def sleeps : List Ev → List Nat
  | [] => []
  | .post _ _ :: rest => sleeps rest
  | .sleep s :: rest => s :: sleeps rest

/-- The headers and body of each network call of an event trace, in order. -/
def postedRequests : List Ev → List (Headers × Payload)
  | [] => []
  | .post h p :: rest => (h, p) :: postedRequests rest
  | .sleep _ :: rest => postedRequests rest

/-- Whether this attempt outcome is a 503 response. -/
def ReqResult.is503 : ReqResult → Bool
  | .ok r => r.status == 503
  | .exc _ => false

/-- Whether this attempt outcome is a raised transport error. -/
def ReqResult.isExc : ReqResult → Bool
  | .exc _ => true
  | .ok _ => false

/-- The RequestException this attempt outcome raises inside the try block
(none when nothing is raised before the return).  A 503 response raises
via raise_for_status — relevant to the app.py variant, which has no
special 503 branch. -/
def ReqResult.raised : ReqResult → Option RequestError
  | .exc m => some (.transportError m)
  | .ok r => raiseForStatus r

namespace Utils

/-- The headers dict of src/utils.py query_hf_api. -/
def headers (token : String) : Headers :=
  ⟨"Bearer " ++ token, "application/json"⟩

/-- The payload dict of src/utils.py query_hf_api: no guidance_scale key. -/
def payload (prompt : String) : Payload :=
  ⟨prompt, "low quality, bad anatomy, blurry", 50, none⟩

/-- The retry loop of src/utils.py query_hf_api (lines 62-91), one list
element per remaining attempt index.  A 503 response sleeps 5*(attempt+1)
and continues; any raised RequestException on the last attempt raises a
RuntimeError wrapping it, otherwise sleeps 5*(attempt+1) and retries;
falling off the end of the loop raises the generic RuntimeError. -/
def loop (backend : Nat → ReqResult) (maxRetries : Int) (h : Headers)
    (p : Payload) : List Nat → List Ev × Except PyError Bytes
  | [] => ([], .error (.runtimeError ("Unexpected error in image generation") none))
  | attempt :: rest =>
    match backend attempt with
    | .ok r =>
      if r.status = 503 then
        let next := loop backend maxRetries h p rest
        (.post h p :: .sleep (5 * (attempt + 1)) :: next.1, next.2)
      else
        match raiseForStatus r with
        | none => ([.post h p], .ok r.content)
        | some e =>
          if (attempt : Int) = maxRetries - 1 then
            ([.post h p], .error (.runtimeError
              ("Failed to generate image after " ++ toString maxRetries
                ++ " attempts: " ++ e.str) (some e)))
          else
            let next := loop backend maxRetries h p rest
            (.post h p :: .sleep (5 * (attempt + 1)) :: next.1, next.2)
    | .exc m =>
      if (attempt : Int) = maxRetries - 1 then
        ([.post h p], .error (.runtimeError
          ("Failed to generate image after " ++ toString maxRetries
            ++ " attempts: " ++ RequestError.str (.transportError m))
          (some (.transportError m))))
      else
        let next := loop backend maxRetries h p rest
        (.post h p :: .sleep (5 * (attempt + 1)) :: next.1, next.2)

/-- src/utils.py query_hf_api.  The HF_TOKEN environment read is modelled
as the token parameter; the network is the backend oracle; the fixed
model_url plays no semantic role and is omitted. -/
def query_hf_api (prompt : String) (token : Option String)
    (backend : Nat → ReqResult) (max_retries : Int) :
    List Ev × Except PyError Bytes :=
  if blankPrompt prompt then
    ([], .error (.valueError ("Prompt cannot be empty")))
  else
    match token with
    | none => ([], .error (.valueError
        ("Hugging Face token not found. Set HF_TOKEN in .env or environment variables.")))
    | some t =>
      if t = "" then
        ([], .error (.valueError
          ("Hugging Face token not found. Set HF_TOKEN in .env or environment variables.")))
      else
        loop backend max_retries (headers t) (payload prompt) (pyRange max_retries)

end Utils

/-- The realistic_modifiers list of src/app.py craft_realistic_prompt. -/
def realistic_modifiers : List String :=
  ["photorealistic", "high resolution", "sharp focus",
   "professional photography", "natural lighting", "detailed textures"]

/-- src/app.py craft_realistic_prompt: joins the fixed modifiers with
spaces and wraps the base prompt between a comma separator and the fixed
camera suffix. -/
def craft_realistic_prompt (base_prompt : String) : String :=
  String.intercalate (" ") realistic_modifiers ++ ", " ++ base_prompt
    ++ ", shot on professional camera, 8k resolution"

namespace App

/-- The headers dict of src/app.py query_hf_api. -/
def headers (token : String) : Headers :=
  ⟨"Bearer " ++ token, "application/json"⟩

/-- The payload dict of src/app.py query_hf_api: enhanced prompt, longer
negative prompt, 75 steps, guidance_scale 8.5. -/
def payload (prompt : String) : Payload :=
  ⟨craft_realistic_prompt prompt,
   "cartoon, anime, low quality, bad anatomy, blurry, unrealistic, painting, drawing, sketch",
   75, some (8.5 : Rat)⟩

/-- The retry loop of src/app.py query_hf_api (lines 127-146): no 503
branch and no sleeps.  Any raised RequestException on the last attempt
raises a RuntimeError wrapping it, otherwise the loop just moves on to
the next attempt; falling off the end raises the generic RuntimeError. -/
def loop (backend : Nat → ReqResult) (maxRetries : Int) (h : Headers)
    (p : Payload) : List Nat → List Ev × Except PyError Bytes
  | [] => ([], .error (.runtimeError ("Unexpected error in image generation") none))
  | attempt :: rest =>
    match backend attempt with
    | .ok r =>
      match raiseForStatus r with
      | none => ([.post h p], .ok r.content)
      | some e =>
        if (attempt : Int) = maxRetries - 1 then
          ([.post h p], .error (.runtimeError
            ("Failed to generate image after " ++ toString maxRetries
              ++ " attempts: " ++ e.str) (some e)))
        else
          let next := loop backend maxRetries h p rest
          (.post h p :: next.1, next.2)
    | .exc m =>
      if (attempt : Int) = maxRetries - 1 then
        ([.post h p], .error (.runtimeError
          ("Failed to generate image after " ++ toString maxRetries
            ++ " attempts: " ++ RequestError.str (.transportError m))
          (some (.transportError m))))
      else
        let next := loop backend maxRetries h p rest
        (.post h p :: next.1, next.2)

/-- src/app.py query_hf_api, modelled like the utils variant. -/
def query_hf_api (prompt : String) (token : Option String)
    (backend : Nat → ReqResult) (max_retries : Int) :
    List Ev × Except PyError Bytes :=
  if blankPrompt prompt then
    ([], .error (.valueError ("Prompt cannot be empty")))
  else
    match token with
    | none => ([], .error (.valueError
        ("Hugging Face token not found. Set HF_TOKEN in .env or environment variables.")))
    | some t =>
      if t = "" then
        ([], .error (.valueError
          ("Hugging Face token not found. Set HF_TOKEN in .env or environment variables.")))
      else
        loop backend max_retries (headers t) (payload prompt) (pyRange max_retries)

end App

/-- An in-memory PIL image: color mode plus decoded pixel data. -/
structure PILImage where
  mode : String
  data : Bytes
deriving DecidableEq

/-- The supported_formats dict of src/app.py convert_image: formats with
their MIME types. -/
def supported_formats : List (String × String) :=
  [("png", "image/png"), ("jpg", "image/jpeg"),
   ("jpeg", "image/jpeg"), ("webp", "image/webp")]

/-- Encoding work performed by convert_image: an image.save call with the
(normalized) format and the color mode of the image being encoded. -/
inductive ImgEffect where
  | save (fmt : String) (mode : String)
deriving DecidableEq

/-- src/app.py convert_image.  The encoder parameter models PIL's
image.save; the effect trace records the encoding work performed.  The
format is lowercased, validated against supported_formats, jpg/jpeg
images are converted to RGB, and the encoded bytes are returned. -/
def convert_image (encoder : PILImage → String → Bytes)
    (image : PILImage) (format : String) :
    List ImgEffect × Except PyError Bytes :=
  let fmt := pyLower format
  if fmt ∉ supported_formats.map Prod.fst then
    ([], .error (.valueError ("Unsupported format. Choose from: "
      ++ String.intercalate (", ") (supported_formats.map Prod.fst))))
  else
    let image2 := if fmt = "jpg" ∨ fmt = "jpeg" then { image with mode := "RGB" } else image
    ([.save fmt image2.mode], .ok (encoder image2 fmt))

/-- The downloadable file produced by generate_image: the BytesIO buffer
with its assigned name. -/
structure DownloadFile where
  name : String
  data : Bytes
deriving DecidableEq

/-- Model of str(e) as interpolated into the "Error: ..." status. -/
def PyError.str : PyError → String
  | .valueError m => m
  | .runtimeError m _ => m

/-- src/app.py generate_image (lines 148-182).  decode models
PIL.Image.open on the returned bytes (error = the message of the raised
exception); encoder models image.save inside convert_image.  Every
exception of the try block is caught and rendered as an "Error: ..."
status with the image output and download bytes left as None. -/
def generate_image (token : Option String) (backend : Nat → ReqResult)
    (decode : Bytes → Except String PILImage)
    (encoder : PILImage → String → Bytes)
    (prompt : String) (output_format : String) :
    Option PILImage × String × Option DownloadFile :=
  if blankPrompt prompt then
    (none, "Error: Prompt cannot be empty", none)
  else
    match (App.query_hf_api prompt token backend 3).2 with
    | .error e => (none, "Error: " ++ e.str, none)
    | .ok image_bytes =>
      match decode image_bytes with
      | .error m => (none, "Error: " ++ m, none)
      | .ok raw =>
        let image : PILImage := { raw with mode := "RGB" }
        match (convert_image encoder image output_format).2 with
        | .error e => (none, "Error: " ++ e.str, none)
        | .ok dl =>
          (some image, "Image generated successfully!",
           some ⟨"generated_image." ++ pyLower output_format, dl⟩)

/-- A backend whose every attempt yields a 503 response with empty body. -/
def all503 : Nat → ReqResult := fun _ => .ok ⟨503, []⟩

/-- A backend whose first attempt already succeeds with fixed bytes. -/
def okBackend : Nat → ReqResult := fun _ => .ok ⟨200, [1, 2, 3]⟩

/-- A backend whose every attempt raises a transport error. -/
def excBackend : Nat → ReqResult := fun _ => .exc ("boom")

/-- Whether a query outcome is a RuntimeError that wraps an underlying
RequestException cause. -/
def wrapsCause : Except PyError Bytes → Bool
  | .error (.runtimeError _ (some _)) => true
  | _ => false

/-- Helper: string append is associative (proved via the data lists). -/
theorem strAppendAssoc (a b c : String) : (a ++ b) ++ c = a ++ (b ++ c) := by
  cases a with
  | mk la =>
    cases b with
    | mk lb =>
      cases c with
      | mk lc =>
        show String.mk ((la ++ lb) ++ lc) = String.mk (la ++ (lb ++ lc))
        rw [List.append_assoc]

example : craft_realistic_prompt ("a dog")
    = "photorealistic high resolution sharp focus professional photography natural lighting detailed textures, a dog, shot on professional camera, 8k resolution" := by
  rfl

/-- Helper: with a valid prompt and token, the utils variant reduces to
its retry loop over the attempt range. -/
theorem Utils.query_eq_loop_utils (prompt t : String) (backend : Nat → ReqResult)
    (m : Int) (hp : blankPrompt prompt = false) (ht : t ≠ "") :
    Utils.query_hf_api prompt (some t) backend m
      = Utils.loop backend m (Utils.headers t) (Utils.payload prompt) (pyRange m) := by
  simp [Utils.query_hf_api, hp, ht]

/-- Helper: with a valid prompt and token, the app variant reduces to its
retry loop over the attempt range. -/
theorem App.query_eq_loop_app (prompt t : String) (backend : Nat → ReqResult)
    (m : Int) (hp : blankPrompt prompt = false) (ht : t ≠ "") :
    App.query_hf_api prompt (some t) backend m
      = App.loop backend m (App.headers t) (App.payload prompt) (pyRange m) := by
  simp [App.query_hf_api, hp, ht]

/-- Helper: the utils retry loop performs at most one network call per
remaining attempt. -/
theorem Utils.loop_postCount_le_utils (backend : Nat → ReqResult) (m : Int)
    (h : Headers) (p : Payload) (l : List Nat) :
    postCount (Utils.loop backend m h p l).1 ≤ l.length := by
  induction l with
  | nil => simp [Utils.loop, postCount]
  | cons a rest ih =>
    cases hb : backend a with
    | ok r =>
      by_cases h503 : r.status = 503
      · simp only [Utils.loop, hb, h503, if_pos, postCount, List.length_cons]
        omega
      · cases hrs : raiseForStatus r with
        | none =>
          simp only [Utils.loop, hb, hrs, if_neg h503, postCount, List.length_cons]
          omega
        | some e =>
          by_cases hlast : (a : Int) = m - 1
          · simp only [Utils.loop, hb, hrs, if_neg h503, if_pos hlast, postCount,
              List.length_cons]
            omega
          · simp only [Utils.loop, hb, hrs, if_neg h503, if_neg hlast, postCount,
              List.length_cons]
            omega
    | exc msg =>
      by_cases hlast : (a : Int) = m - 1
      · simp only [Utils.loop, hb, if_pos hlast, postCount, List.length_cons]
        omega
      · simp only [Utils.loop, hb, if_neg hlast, postCount, List.length_cons]
        omega

/-- Helper: the app retry loop performs at most one network call per
remaining attempt. -/
theorem App.loop_postCount_le_app (backend : Nat → ReqResult) (m : Int)
    (h : Headers) (p : Payload) (l : List Nat) :
    postCount (App.loop backend m h p l).1 ≤ l.length := by
  induction l with
  | nil => simp [App.loop, postCount]
  | cons a rest ih =>
    cases hb : backend a with
    | ok r =>
      cases hrs : raiseForStatus r with
      | none =>
        simp only [App.loop, hb, hrs, postCount, List.length_cons]
        omega
      | some e =>
        by_cases hlast : (a : Int) = m - 1
        · simp only [App.loop, hb, hrs, if_pos hlast, postCount, List.length_cons]
          omega
        · simp only [App.loop, hb, hrs, if_neg hlast, postCount, List.length_cons]
          omega
    | exc msg =>
      by_cases hlast : (a : Int) = m - 1
      · simp only [App.loop, hb, if_pos hlast, postCount, List.length_cons]
        omega
      · simp only [App.loop, hb, if_neg hlast, postCount, List.length_cons]
        omega

/-- Helper: every network call of the utils retry loop carries the fixed
headers and payload built before the loop. -/
theorem Utils.loop_posts_utils (backend : Nat → ReqResult) (m : Int) (h : Headers)
    (p : Payload) (l : List Nat) :
    ∀ x ∈ postedRequests (Utils.loop backend m h p l).1, x = (h, p) := by
  induction l with
  | nil =>
    intro x hx
    simp [Utils.loop, postedRequests] at hx
  | cons a rest ih =>
    intro x hx
    cases hb : backend a with
    | ok r =>
      by_cases h503 : r.status = 503
      · simp only [Utils.loop, hb, h503, if_pos, postedRequests, List.mem_cons] at hx
        rcases hx with hx | hx
        · exact hx
        · exact ih x hx
      · cases hrs : raiseForStatus r with
        | none =>
          simp only [Utils.loop, hb, hrs, if_neg h503, postedRequests,
            List.mem_cons, List.not_mem_nil, or_false] at hx
          exact hx
        | some e =>
          by_cases hlast : (a : Int) = m - 1
          · simp only [Utils.loop, hb, hrs, if_neg h503, if_pos hlast, postedRequests,
              List.mem_cons, List.not_mem_nil, or_false] at hx
            exact hx
          · simp only [Utils.loop, hb, hrs, if_neg h503, if_neg hlast, postedRequests,
              List.mem_cons] at hx
            rcases hx with hx | hx
            · exact hx
            · exact ih x hx
    | exc msg =>
      by_cases hlast : (a : Int) = m - 1
      · simp only [Utils.loop, hb, if_pos hlast, postedRequests,
          List.mem_cons, List.not_mem_nil, or_false] at hx
        exact hx
      · simp only [Utils.loop, hb, if_neg hlast, postedRequests, List.mem_cons] at hx
        rcases hx with hx | hx
        · exact hx
        · exact ih x hx

/-- Helper: every network call of the app retry loop carries the fixed
headers and payload built before the loop. -/
theorem App.loop_posts_app (backend : Nat → ReqResult) (m : Int) (h : Headers)
    (p : Payload) (l : List Nat) :
    ∀ x ∈ postedRequests (App.loop backend m h p l).1, x = (h, p) := by
  induction l with
  | nil =>
    intro x hx
    simp [App.loop, postedRequests] at hx
  | cons a rest ih =>
    intro x hx
    cases hb : backend a with
    | ok r =>
      cases hrs : raiseForStatus r with
      | none =>
        simp only [App.loop, hb, hrs, postedRequests,
          List.mem_cons, List.not_mem_nil, or_false] at hx
        exact hx
      | some e =>
        by_cases hlast : (a : Int) = m - 1
        · simp only [App.loop, hb, hrs, if_pos hlast, postedRequests,
            List.mem_cons, List.not_mem_nil, or_false] at hx
          exact hx
        · simp only [App.loop, hb, hrs, if_neg hlast, postedRequests, List.mem_cons] at hx
          rcases hx with hx | hx
          · exact hx
          · exact ih x hx
    | exc msg =>
      by_cases hlast : (a : Int) = m - 1
      · simp only [App.loop, hb, if_pos hlast, postedRequests,
          List.mem_cons, List.not_mem_nil, or_false] at hx
        exact hx
      · simp only [App.loop, hb, if_neg hlast, postedRequests, List.mem_cons] at hx
        rcases hx with hx | hx
        · exact hx
        · exact ih x hx

/-- Helper: a successful result of the utils retry loop is exactly the
content of some backend response whose status passed raise_for_status. -/
theorem Utils.loop_ok_utils (backend : Nat → ReqResult) (m : Int) (h : Headers)
    (p : Payload) (l : List Nat) (bs : Bytes) :
    (Utils.loop backend m h p l).2 = .ok bs →
    ∃ n r, backend n = .ok r ∧ raiseForStatus r = none ∧ bs = r.content := by
  induction l with
  | nil =>
    intro hx
    simp [Utils.loop] at hx
  | cons a rest ih =>
    intro hx
    cases hb : backend a with
    | ok r =>
      by_cases h503 : r.status = 503
      · rw [Utils.loop] at hx
        simp only [hb, h503, if_pos] at hx
        exact ih hx
      · cases hrs : raiseForStatus r with
        | none =>
          rw [Utils.loop] at hx
          simp only [hb, hrs, if_neg h503] at hx
          exact ⟨a, r, hb, hrs, by simpa using hx.symm⟩
        | some e =>
          by_cases hlast : (a : Int) = m - 1
          · rw [Utils.loop] at hx
            simp [hb, hrs, if_neg h503, if_pos hlast] at hx
          · rw [Utils.loop] at hx
            simp only [hb, hrs, if_neg h503, if_neg hlast] at hx
            exact ih hx
    | exc msg =>
      by_cases hlast : (a : Int) = m - 1
      · rw [Utils.loop] at hx
        simp [hb, if_pos hlast] at hx
      · rw [Utils.loop] at hx
        simp only [hb, if_neg hlast] at hx
        exact ih hx

/-- Helper: a successful result of the app retry loop is exactly the
content of some backend response whose status passed raise_for_status. -/
theorem App.loop_ok_app (backend : Nat → ReqResult) (m : Int) (h : Headers)
    (p : Payload) (l : List Nat) (bs : Bytes) :
    (App.loop backend m h p l).2 = .ok bs →
    ∃ n r, backend n = .ok r ∧ raiseForStatus r = none ∧ bs = r.content := by
  induction l with
  | nil =>
    intro hx
    simp [App.loop] at hx
  | cons a rest ih =>
    intro hx
    cases hb : backend a with
    | ok r =>
      cases hrs : raiseForStatus r with
      | none =>
        rw [App.loop] at hx
        simp only [hb, hrs] at hx
        exact ⟨a, r, hb, hrs, by simpa using hx.symm⟩
      | some e =>
        by_cases hlast : (a : Int) = m - 1
        · rw [App.loop] at hx
          simp [hb, hrs, if_pos hlast] at hx
        · rw [App.loop] at hx
          simp only [hb, hrs, if_neg hlast] at hx
          exact ih hx
    | exc msg =>
      by_cases hlast : (a : Int) = m - 1
      · rw [App.loop] at hx
        simp [hb, if_pos hlast] at hx
      · rw [App.loop] at hx
        simp only [hb, if_neg hlast] at hx
        exact ih hx

/-- Helper: a 503 response makes the utils retry loop post, sleep
5*(attempt+1) and continue with the remaining attempts. -/
theorem Utils.loop_503_step (backend : Nat → ReqResult) (m : Int) (h : Headers)
    (p : Payload) (a : Nat) (rest : List Nat)
    (h503 : (backend a).is503 = true) :
    Utils.loop backend m h p (a :: rest)
      = (.post h p :: .sleep (5 * (a + 1)) :: (Utils.loop backend m h p rest).1,
         (Utils.loop backend m h p rest).2) := by
  cases hbn : backend a with
  | exc msg =>
    rw [hbn] at h503
    simp [ReqResult.is503] at h503
  | ok r =>
    rw [hbn] at h503
    simp only [ReqResult.is503, beq_iff_eq] at h503
    simp [Utils.loop, hbn, h503]

/-- Helper: a raised RequestException on a non-last attempt makes the
utils retry loop post, sleep 5*(attempt+1) and continue. -/
theorem Utils.loop_fail_step_utils (backend : Nat → ReqResult) (m : Int) (h : Headers)
    (p : Payload) (a : Nat) (rest : List Nat)
    (hfail : (backend a).is503 = false ∧ ((backend a).raised).isSome = true)
    (hnl : (a : Int) ≠ m - 1) :
    Utils.loop backend m h p (a :: rest)
      = (.post h p :: .sleep (5 * (a + 1)) :: (Utils.loop backend m h p rest).1,
         (Utils.loop backend m h p rest).2) := by
  obtain ⟨h1, h2⟩ := hfail
  cases hbn : backend a with
  | exc msg => simp [Utils.loop, hbn, hnl]
  | ok r =>
    rw [hbn] at h1 h2
    simp only [ReqResult.is503, beq_eq_false_iff_ne, ne_eq] at h1
    simp only [ReqResult.raised] at h2
    cases hrs : raiseForStatus r with
    | none =>
      rw [hrs] at h2
      simp at h2
    | some e => simp [Utils.loop, hbn, h1, hrs, hnl]

/-- Helper: a raised RequestException on the last attempt makes the utils
retry loop raise the RuntimeError wrapping it, after a single post. -/
theorem Utils.loop_fail_last_utils (backend : Nat → ReqResult) (m : Int) (h : Headers)
    (p : Payload) (a : Nat) (rest : List Nat)
    (hfail : (backend a).is503 = false ∧ ((backend a).raised).isSome = true)
    (hl : (a : Int) = m - 1) :
    ∃ e, (backend a).raised = some e ∧
      Utils.loop backend m h p (a :: rest)
        = ([.post h p], .error (.runtimeError
            ("Failed to generate image after " ++ toString m
              ++ " attempts: " ++ e.str) (some e))) := by
  obtain ⟨h1, h2⟩ := hfail
  cases hbn : backend a with
  | exc msg =>
    refine ⟨.transportError msg, by simp [ReqResult.raised, hbn], ?_⟩
    simp [Utils.loop, hbn, hl]
  | ok r =>
    rw [hbn] at h1 h2
    simp only [ReqResult.is503, beq_eq_false_iff_ne, ne_eq] at h1
    simp only [ReqResult.raised] at h2
    cases hrs : raiseForStatus r with
    | none =>
      rw [hrs] at h2
      simp at h2
    | some e =>
      refine ⟨e, by simp [ReqResult.raised, hbn, hrs], ?_⟩
      simp [Utils.loop, hbn, h1, hrs, hl]

/-- Helper: a raised RequestException on a non-last attempt makes the app
retry loop post and continue immediately, with no sleep. -/
theorem App.loop_fail_step_app (backend : Nat → ReqResult) (m : Int) (h : Headers)
    (p : Payload) (a : Nat) (rest : List Nat)
    (hfail : ((backend a).raised).isSome = true)
    (hnl : (a : Int) ≠ m - 1) :
    App.loop backend m h p (a :: rest)
      = (.post h p :: (App.loop backend m h p rest).1,
         (App.loop backend m h p rest).2) := by
  cases hbn : backend a with
  | exc msg => simp [App.loop, hbn, hnl]
  | ok r =>
    rw [hbn] at hfail
    simp only [ReqResult.raised] at hfail
    cases hrs : raiseForStatus r with
    | none =>
      rw [hrs] at hfail
      simp at hfail
    | some e => simp [App.loop, hbn, hrs, hnl]

/-- Helper: a raised RequestException on the last attempt makes the app
retry loop raise the RuntimeError wrapping it, after a single post. -/
theorem App.loop_fail_last_app (backend : Nat → ReqResult) (m : Int) (h : Headers)
    (p : Payload) (a : Nat) (rest : List Nat)
    (hfail : ((backend a).raised).isSome = true)
    (hl : (a : Int) = m - 1) :
    ∃ e, (backend a).raised = some e ∧
      App.loop backend m h p (a :: rest)
        = ([.post h p], .error (.runtimeError
            ("Failed to generate image after " ++ toString m
              ++ " attempts: " ++ e.str) (some e))) := by
  cases hbn : backend a with
  | exc msg =>
    refine ⟨.transportError msg, by simp [ReqResult.raised, hbn], ?_⟩
    simp [App.loop, hbn, hl]
  | ok r =>
    rw [hbn] at hfail
    simp only [ReqResult.raised] at hfail
    cases hrs : raiseForStatus r with
    | none =>
      rw [hrs] at hfail
      simp at hfail
    | some e =>
      refine ⟨e, by simp [ReqResult.raised, hbn, hrs], ?_⟩
      simp [App.loop, hbn, hrs, hl]

/-- Claim C3 (confirmed): for every prompt that is empty or all
whitespace, both variants of query_hf_api raise ValueError
"Prompt cannot be empty" with an empty event trace — no network call —
whatever the token, the backend behaviour and the retry budget. -/
theorem c3_blank_prompt_invalid_input (prompt : String) (token : Option String)
    (backend : Nat → ReqResult) (m : Int) (h : blankPrompt prompt = true) :
    Utils.query_hf_api prompt token backend m
      = ([], .error (.valueError ("Prompt cannot be empty")))
    ∧ App.query_hf_api prompt token backend m
      = ([], .error (.valueError ("Prompt cannot be empty"))) := by
  constructor
  · simp [Utils.query_hf_api, h]
  · simp [App.query_hf_api, h]

/-- Witness for C3 at the whitespace prompt "   ". -/
theorem c3_blank_prompt_invalid_input_witness :
    blankPrompt ("   ") = true ∧
    Utils.query_hf_api ("   ") (some ("tok")) all503 3
      = ([], .error (.valueError ("Prompt cannot be empty"))) :=
  ⟨by decide, (c3_blank_prompt_invalid_input ("   ") (some ("tok")) all503 3 (by decide)).1⟩

/-- Claim C6 (confirmed): for every non-empty base prompt, the enhancer
output starts with the space-joined fixed modifier list, contains the
base prompt as a substring, and ends with the fixed camera suffix. -/
theorem c6_enhancer_shape (base : String) (_h : base ≠ "") :
    (∃ rest, craft_realistic_prompt base
        = String.intercalate (" ") realistic_modifiers ++ rest)
    ∧ (∃ l r, craft_realistic_prompt base = l ++ base ++ r)
    ∧ (∃ l, craft_realistic_prompt base
        = l ++ ", shot on professional camera, 8k resolution") := by
  refine ⟨⟨", " ++ base ++ ", shot on professional camera, 8k resolution", ?_⟩,
    ⟨String.intercalate (" ") realistic_modifiers ++ ", ",
     ", shot on professional camera, 8k resolution", rfl⟩,
    ⟨String.intercalate (" ") realistic_modifiers ++ ", " ++ base, rfl⟩⟩
  unfold craft_realistic_prompt
  simp only [strAppendAssoc]

/-- Witness for C6 at the base prompt "a dog". -/
theorem c6_enhancer_shape_witness :
    ("a dog" : String) ≠ "" ∧
    (∃ rest, craft_realistic_prompt ("a dog")
        = String.intercalate (" ") realistic_modifiers ++ rest) :=
  ⟨by decide, (c6_enhancer_shape ("a dog") (by decide)).1⟩

/-- Claim C9 counterexample: on the empty input the enhancer does not
return a modifier-only string — the output still carries the comma
separators around an empty prompt slot and the fixed camera suffix. -/
theorem c9_counterexample :
    craft_realistic_prompt ("")
      = String.intercalate (" ") realistic_modifiers
        ++ ", , shot on professional camera, 8k resolution"
    ∧ craft_realistic_prompt ("") ≠ String.intercalate (" ") realistic_modifiers := by
  constructor
  · rfl
  · decide

/-- Claim C9 (corrected): craft_realistic_prompt is a total function with
no failure modes, and on the empty input it yields the fixed modifiers
followed by a separator, the empty prompt slot, and the fixed suffix —
fixed text only, but not the modifiers alone. -/
theorem c9_amended :
    craft_realistic_prompt ("")
      = String.intercalate (" ") realistic_modifiers
        ++ ", , shot on professional camera, 8k resolution" := rfl

/-- Claim C10 (confirmed): with a valid prompt and token but a retry
budget of zero or below, the attempt range is empty, so both variants
make no network call and raise the generic RuntimeError
"Unexpected error in image generation" wrapping no cause. -/
theorem c10_nonpositive_retries (prompt t : String) (backend : Nat → ReqResult)
    (m : Int) (hp : blankPrompt prompt = false) (ht : t ≠ "") (hm : m ≤ 0) :
    Utils.query_hf_api prompt (some t) backend m
      = ([], .error (.runtimeError ("Unexpected error in image generation") none))
    ∧ App.query_hf_api prompt (some t) backend m
      = ([], .error (.runtimeError ("Unexpected error in image generation") none)) := by
  have hr : pyRange m = [] := by
    simp [pyRange, Int.toNat_of_nonpos hm]
  rw [Utils.query_eq_loop_utils prompt t backend m hp ht,
    App.query_eq_loop_app prompt t backend m hp ht, hr]
  exact ⟨rfl, rfl⟩

/-- Witness for C10 at max_retries = 0 with a backend that would succeed
if it were ever called. -/
theorem c10_nonpositive_retries_witness :
    blankPrompt ("a cat") = false ∧ ((0 : Int) ≤ 0) ∧
    Utils.query_hf_api ("a cat") (some ("tok")) okBackend 0
      = ([], .error (.runtimeError ("Unexpected error in image generation") none)) :=
  ⟨by decide, by decide,
   (c10_nonpositive_retries ("a cat") ("tok") okBackend 0 (by decide) (by decide)
     (by decide)).1⟩

/-- Claim C7 counterexample: the requested format "PNG" lies outside the
literal set {png, jpg, jpeg, webp}, yet convert_image succeeds on it
(the code lowercases the format before the membership check), so the
claim as stated is false. -/
theorem c7_counterexample :
    ¬ ("PNG" ∈ supported_formats.map Prod.fst)
    ∧ convert_image (fun img _ => img.data) ⟨"RGB", [7]⟩ ("PNG")
      = ([.save ("png") ("RGB")], .ok [7]) := by
  exact ⟨by decide, rfl⟩

/-- Claim C7 (corrected): for every requested format whose lowercased
form is outside {png, jpg, jpeg, webp}, convert_image raises ValueError
naming the permitted set, with an empty effect trace — no encoding work
touches the image. -/
theorem c7_amended (encoder : PILImage → String → Bytes) (image : PILImage)
    (format : String) (h : pyLower format ∉ supported_formats.map Prod.fst) :
    convert_image encoder image format
      = ([], .error (.valueError
          ("Unsupported format. Choose from: png, jpg, jpeg, webp"))) := by
  simp only [convert_image, h, not_false_eq_true, if_true]
  rfl

/-- Witness for C7 at the format "gif". -/
theorem c7_amended_witness :
    pyLower ("gif") ∉ supported_formats.map Prod.fst ∧
    convert_image (fun img _ => img.data) ⟨"RGB", [7]⟩ ("gif")
      = ([], .error (.valueError
          ("Unsupported format. Choose from: png, jpg, jpeg, webp"))) :=
  ⟨by decide, c7_amended (fun img _ => img.data) ⟨"RGB", [7]⟩ ("gif") (by decide)⟩

/-- Claim C8 (confirmed): generate_image never propagates an exception:
for every token, backend, decoder, encoder, prompt and output format it
returns either a human-readable "Error: ..." status with the image and
download outputs left as None, or the decoded image with the success
message and the converted bytes. -/
theorem c8_ui_boundary (token : Option String) (backend : Nat → ReqResult)
    (decode : Bytes → Except String PILImage) (encoder : PILImage → String → Bytes)
    (prompt output_format : String) :
    (∃ msg, generate_image token backend decode encoder prompt output_format
        = (none, "Error: " ++ msg, none))
    ∨ (∃ image file, generate_image token backend decode encoder prompt output_format
        = (some image, "Image generated successfully!", some file)) := by
  unfold generate_image
  by_cases hb : blankPrompt prompt = true
  · rw [if_pos hb]
    exact Or.inl ⟨"Prompt cannot be empty", rfl⟩
  · rw [if_neg hb]
    cases hq : (App.query_hf_api prompt token backend 3).2 with
    | error e => exact Or.inl ⟨e.str, rfl⟩
    | ok image_bytes =>
      dsimp only
      cases hd : decode image_bytes with
      | error m => exact Or.inl ⟨m, rfl⟩
      | ok raw =>
        dsimp only
        cases hc : (convert_image encoder { raw with mode := "RGB" } output_format).2 with
        | error e2 => exact Or.inl ⟨e2.str, rfl⟩
        | ok dl => exact Or.inr ⟨_, _, rfl⟩

/-- Claim C1 counterexample: with a persistently-503 backend the utils
variant sleeps three times — 5, 10 and then 15 time units, the third
sleep following the final attempt — so the claimed sleep trace of
exactly [5, 10] with no other sleeps is false (the app variant, also
cited by the claim, never sleeps at all). -/
theorem c1_counterexample :
    sleeps (Utils.query_hf_api ("a cat") (some ("tok")) all503 3).1 = [5, 10, 15]
    ∧ sleeps (App.query_hf_api ("a cat") (some ("tok")) all503 3).1 = []
    ∧ ([5, 10, 15] : List Nat) ≠ [5, 10] := by
  exact ⟨rfl, rfl, by decide⟩

/-- Claim C1 (corrected): with a valid prompt and token and the default
budget of 3, both variants make at most 3 network calls; when every
attempt receives a 503 status, exactly 3 attempts occur, the utils
variant sleeping 5, 10 and 15 time units (one sleep after every 503
response, the final attempt included) and the app variant not sleeping
at all. -/
theorem c1_amended (prompt t : String) (backend : Nat → ReqResult)
    (hp : blankPrompt prompt = false) (ht : t ≠ "") :
    postCount (Utils.query_hf_api prompt (some t) backend 3).1 ≤ 3
    ∧ postCount (App.query_hf_api prompt (some t) backend 3).1 ≤ 3
    ∧ ((∀ n, n < 3 → (backend n).is503 = true) →
      postCount (Utils.query_hf_api prompt (some t) backend 3).1 = 3
      ∧ sleeps (Utils.query_hf_api prompt (some t) backend 3).1 = [5, 10, 15]
      ∧ postCount (App.query_hf_api prompt (some t) backend 3).1 = 3
      ∧ sleeps (App.query_hf_api prompt (some t) backend 3).1 = []) := by
  have hu := Utils.query_eq_loop_utils prompt t backend 3 hp ht
  have ha := App.query_eq_loop_app prompt t backend 3 hp ht
  have hr3 : pyRange 3 = [0, 1, 2] := rfl
  refine ⟨?_, ?_, ?_⟩
  · rw [hu]
    simpa [hr3] using Utils.loop_postCount_le_utils backend 3 (Utils.headers t)
      (Utils.payload prompt) (pyRange 3)
  · rw [ha]
    simpa [hr3] using App.loop_postCount_le_app backend 3 (App.headers t)
      (App.payload prompt) (pyRange 3)
  · intro hall
    have s0 := Utils.loop_503_step backend 3 (Utils.headers t) (Utils.payload prompt)
      0 [1, 2] (hall 0 (by omega))
    have s1 := Utils.loop_503_step backend 3 (Utils.headers t) (Utils.payload prompt)
      1 [2] (hall 1 (by omega))
    have s2 := Utils.loop_503_step backend 3 (Utils.headers t) (Utils.payload prompt)
      2 [] (hall 2 (by omega))
    have hfail : ∀ n, n < 3 → ((backend n).raised).isSome = true := by
      intro n hn
      have h5 := hall n hn
      cases hbn : backend n with
      | exc msg => simp [ReqResult.raised]
      | ok r =>
        rw [hbn] at h5
        simp only [ReqResult.is503, beq_iff_eq] at h5
        simp [ReqResult.raised, raiseForStatus, h5]
    have a0 := App.loop_fail_step_app backend 3 (App.headers t) (App.payload prompt)
      0 [1, 2] (hfail 0 (by omega)) (by decide)
    have a1 := App.loop_fail_step_app backend 3 (App.headers t) (App.payload prompt)
      1 [2] (hfail 1 (by omega)) (by decide)
    obtain ⟨e2, he2, a2⟩ := App.loop_fail_last_app backend 3 (App.headers t)
      (App.payload prompt) 2 [] (hfail 2 (by omega)) (by decide)
    rw [hu, ha, hr3]
    rw [s0, s1, s2, a0, a1, a2]
    refine ⟨?_, ?_, ?_, ?_⟩ <;> simp [Utils.loop, App.loop, postCount, sleeps]

/-- Witness for C1 at the persistently-503 backend. -/
theorem c1_amended_witness :
    blankPrompt ("a cat") = false ∧
    postCount (Utils.query_hf_api ("a cat") (some ("tok")) all503 3).1 ≤ 3 :=
  ⟨by decide, (c1_amended ("a cat") ("tok") all503 (by decide) (by decide)).1⟩

/-- Claim C2 counterexample: with a persistently-503 backend the utils
variant ends in the generic RuntimeError "Unexpected error in image
generation", which wraps no underlying cause — contradicting the claim
that every all-attempts-fail run ends in an error wrapping the last
transport/HTTP error. -/
theorem c2_counterexample :
    (Utils.query_hf_api ("a cat") (some ("tok")) all503 3).2
      = .error (.runtimeError ("Unexpected error in image generation") none)
    ∧ wrapsCause (Utils.query_hf_api ("a cat") (some ("tok")) all503 3).2 = false := by
  exact ⟨rfl, rfl⟩

/-- Claim C2 (corrected): when every attempt raises a RequestException,
both variants end after the final attempt in a RuntimeError wrapping the
last error (in the app variant this includes 503 responses, which raise
through raise_for_status); but in the utils variant a run whose every
attempt returns 503 ends in the generic RuntimeError wrapping nothing. -/
theorem c2_amended (prompt t : String) (backend : Nat → ReqResult)
    (hp : blankPrompt prompt = false) (ht : t ≠ "") :
    ((∀ n, n < 3 → ((backend n).raised).isSome = true) →
      ∃ e, (backend 2).raised = some e ∧
        (App.query_hf_api prompt (some t) backend 3).2
          = .error (.runtimeError
              ("Failed to generate image after 3 attempts: " ++ e.str) (some e)))
    ∧ ((∀ n, n < 3 → (backend n).is503 = false ∧ ((backend n).raised).isSome = true) →
      ∃ e, (backend 2).raised = some e ∧
        (Utils.query_hf_api prompt (some t) backend 3).2
          = .error (.runtimeError
              ("Failed to generate image after 3 attempts: " ++ e.str) (some e)))
    ∧ ((∀ n, n < 3 → (backend n).is503 = true) →
      (Utils.query_hf_api prompt (some t) backend 3).2
        = .error (.runtimeError ("Unexpected error in image generation") none)) := by
  have hu := Utils.query_eq_loop_utils prompt t backend 3 hp ht
  have ha := App.query_eq_loop_app prompt t backend 3 hp ht
  have hr3 : pyRange 3 = [0, 1, 2] := rfl
  refine ⟨?_, ?_, ?_⟩
  · intro hall
    have a0 := App.loop_fail_step_app backend 3 (App.headers t) (App.payload prompt)
      0 [1, 2] (hall 0 (by omega)) (by decide)
    have a1 := App.loop_fail_step_app backend 3 (App.headers t) (App.payload prompt)
      1 [2] (hall 1 (by omega)) (by decide)
    obtain ⟨e2, he2, a2⟩ := App.loop_fail_last_app backend 3 (App.headers t)
      (App.payload prompt) 2 [] (hall 2 (by omega)) (by decide)
    refine ⟨e2, he2, ?_⟩
    rw [ha, hr3]
    simp only [a0, a1, a2]
    rfl
  · intro hall
    have u0 := Utils.loop_fail_step_utils backend 3 (Utils.headers t) (Utils.payload prompt)
      0 [1, 2] (hall 0 (by omega)) (by decide)
    have u1 := Utils.loop_fail_step_utils backend 3 (Utils.headers t) (Utils.payload prompt)
      1 [2] (hall 1 (by omega)) (by decide)
    obtain ⟨e2, he2, u2⟩ := Utils.loop_fail_last_utils backend 3 (Utils.headers t)
      (Utils.payload prompt) 2 [] (hall 2 (by omega)) (by decide)
    refine ⟨e2, he2, ?_⟩
    rw [hu, hr3]
    simp only [u0, u1, u2]
    rfl
  · intro hall
    have s0 := Utils.loop_503_step backend 3 (Utils.headers t) (Utils.payload prompt)
      0 [1, 2] (hall 0 (by omega))
    have s1 := Utils.loop_503_step backend 3 (Utils.headers t) (Utils.payload prompt)
      1 [2] (hall 1 (by omega))
    have s2 := Utils.loop_503_step backend 3 (Utils.headers t) (Utils.payload prompt)
      2 [] (hall 2 (by omega))
    rw [hu, hr3]
    simp only [s0, s1, s2]
    rfl

/-- Witness for C2 at a backend raising a transport error on every
attempt: the app variant wraps the last error. -/
theorem c2_amended_witness :
    blankPrompt ("a cat") = false ∧
    (∃ e, (excBackend 2).raised = some e ∧
      (App.query_hf_api ("a cat") (some ("tok")) excBackend 3).2
        = .error (.runtimeError
            ("Failed to generate image after 3 attempts: " ++ e.str) (some e))) :=
  ⟨by decide,
   (c2_amended ("a cat") ("tok") excBackend (by decide) (by decide)).1
     (fun n _ => rfl)⟩

/-- Claim C4 counterexample: a network-reaching utils-variant call posts
exactly its fixed payload, and that payload carries no guidance_scale
parameter — so the request body does not always contain guidance_scale. -/
theorem c4_counterexample :
    postedRequests (Utils.query_hf_api ("a cat") (some ("tok")) okBackend 3).1
      = [(Utils.headers ("tok"), Utils.payload ("a cat"))]
    ∧ (Utils.payload ("a cat")).guidance_scale = none := by
  exact ⟨rfl, rfl⟩

/-- Claim C4 (corrected): every network call of either variant carries
the Authorization Bearer token header and the fixed JSON body shape
{inputs, parameters: {negative_prompt, num_inference_steps, ...}}; the
app variant's body includes guidance_scale 8.5, while the utils
variant's body has no guidance_scale parameter. -/
theorem c4_amended (prompt t : String) (backend : Nat → ReqResult) (m : Int)
    (hp : blankPrompt prompt = false) (ht : t ≠ "") :
    (∀ x ∈ postedRequests (Utils.query_hf_api prompt (some t) backend m).1,
      x = (Utils.headers t, Utils.payload prompt))
    ∧ (∀ x ∈ postedRequests (App.query_hf_api prompt (some t) backend m).1,
      x = (App.headers t, App.payload prompt))
    ∧ (Utils.headers t).authorization = "Bearer " ++ t
    ∧ (App.headers t).authorization = "Bearer " ++ t
    ∧ Utils.payload prompt
      = ⟨prompt, "low quality, bad anatomy, blurry", 50, none⟩
    ∧ App.payload prompt
      = ⟨craft_realistic_prompt prompt,
         "cartoon, anime, low quality, bad anatomy, blurry, unrealistic, painting, drawing, sketch",
         75, some (8.5 : Rat)⟩ := by
  refine ⟨?_, ?_, rfl, rfl, rfl, rfl⟩
  · rw [Utils.query_eq_loop_utils prompt t backend m hp ht]
    exact Utils.loop_posts_utils backend m (Utils.headers t) (Utils.payload prompt) (pyRange m)
  · rw [App.query_eq_loop_app prompt t backend m hp ht]
    exact App.loop_posts_app backend m (App.headers t) (App.payload prompt) (pyRange m)

/-- Witness for C4 at a concrete call. -/
theorem c4_amended_witness :
    blankPrompt ("a cat") = false ∧
    (Utils.headers ("tok")).authorization = "Bearer " ++ "tok" :=
  ⟨by decide, (c4_amended ("a cat") ("tok") okBackend 3 (by decide) (by decide)).2.2.1⟩

/-- Claim C5 (confirmed): any successful result of either variant is the
unmodified content of some backend response, and when the first attempt
answers with a 2xx status the run returns exactly those bytes after a
single network call with no sleep and no retry. -/
theorem c5_success_passthrough (prompt t : String) (backend : Nat → ReqResult)
    (r : Response) (hp : blankPrompt prompt = false) (ht : t ≠ "") :
    (∀ bs, (Utils.query_hf_api prompt (some t) backend 3).2 = .ok bs →
      ∃ n r2, backend n = .ok r2 ∧ bs = r2.content)
    ∧ (∀ bs, (App.query_hf_api prompt (some t) backend 3).2 = .ok bs →
      ∃ n r2, backend n = .ok r2 ∧ bs = r2.content)
    ∧ (backend 0 = .ok r → 200 ≤ r.status → r.status < 300 →
      Utils.query_hf_api prompt (some t) backend 3
        = ([.post (Utils.headers t) (Utils.payload prompt)], .ok r.content)
      ∧ App.query_hf_api prompt (some t) backend 3
        = ([.post (App.headers t) (App.payload prompt)], .ok r.content)) := by
  have hu := Utils.query_eq_loop_utils prompt t backend 3 hp ht
  have ha := App.query_eq_loop_app prompt t backend 3 hp ht
  have hr3 : pyRange 3 = [0, 1, 2] := rfl
  refine ⟨?_, ?_, ?_⟩
  · intro bs hbs
    rw [hu] at hbs
    obtain ⟨n, r2, h1, _, h3⟩ := Utils.loop_ok_utils backend 3 (Utils.headers t)
      (Utils.payload prompt) (pyRange 3) bs hbs
    exact ⟨n, r2, h1, h3⟩
  · intro bs hbs
    rw [ha] at hbs
    obtain ⟨n, r2, h1, _, h3⟩ := App.loop_ok_app backend 3 (App.headers t)
      (App.payload prompt) (pyRange 3) bs hbs
    exact ⟨n, r2, h1, h3⟩
  · intro hb0 hs1 hs2
    have h503 : ¬ r.status = 503 := by omega
    have hrs : raiseForStatus r = none := by
      unfold raiseForStatus
      rw [if_neg (by omega : ¬ (400 ≤ r.status ∧ r.status < 600))]
    constructor
    · rw [hu, hr3]
      simp [Utils.loop, hb0, h503, hrs]
    · rw [ha, hr3]
      simp [App.loop, hb0, hrs]

/-- Witness for C5 at a backend succeeding on the first attempt. -/
theorem c5_success_passthrough_witness :
    blankPrompt ("a cat") = false ∧ okBackend 0 = .ok ⟨200, [1, 2, 3]⟩ ∧
    Utils.query_hf_api ("a cat") (some ("tok")) okBackend 3
      = ([.post (Utils.headers ("tok")) (Utils.payload ("a cat"))], .ok [1, 2, 3]) :=
  ⟨by decide, rfl,
   ((c5_success_passthrough ("a cat") ("tok") okBackend ⟨200, [1, 2, 3]⟩
       (by decide) (by decide)).2.2 rfl (by decide) (by decide)).1⟩
